import Mathlib

set_option maxRecDepth 40000

/-! Shallow embedding of the core subsystem of the Trizen FYP CMS backend:
the problem-statement custom-ID allocator (the `pre('save')` hook of
`ProblemStatementSchema` together with `domainPrefixMap`) and the bulk
CSV import pipeline (`bulkUploadProblems`, `parseArrayField`,
`downloadTemplate` in `problemController.ts`).  Machine integers do not
occur; all counters are naturals.  The document store is modelled as an
explicit list of records, and each persistence attempt of the import
pipeline is modelled by an oracle value (`none` = the write succeeded,
`some msg` = the write threw an error with message `msg`). -/

/-- Character class `[A-Z]` of the ID format regex. -/
def isUpperAZ (c : Char) : Bool := 'A' ≤ c && c ≤ 'Z'

/-- Character class `\d` of the ID format regex. -/
def isDigit09 (c : Char) : Bool := '0' ≤ c && c ≤ '9'

/-- Decidable model, on char lists, of the anchored regex
`^[A-Z]{2,3}\d{3}$` used both by the schema validator of the `id` field
and by the pre-save hook: either exactly 2 uppercase letters followed by
exactly 3 digits, or exactly 3 uppercase letters followed by exactly 3
digits. -/
def matchFmtChars : List Char → Bool
  | [a, b, x, y, z] =>
      isUpperAZ a && isUpperAZ b && isDigit09 x && isDigit09 y && isDigit09 z
  | [a, b, c, x, y, z] =>
      isUpperAZ a && isUpperAZ b && isUpperAZ c &&
        isDigit09 x && isDigit09 y && isDigit09 z
  | _ => false

/-- Model of `/^[A-Z]{2,3}\d{3}$/.test(s)`. -/
def matchesIdFormat (s : String) : Bool := matchFmtChars s.data

/-- Model of the schema validator of the `id` field:
`!v || /^[A-Z]{2,3}\d{3}$/.test(v)`. -/
def idValidator (v : String) : Bool := v == "" || matchesIdFormat v

/-- One stored problem-statement document (interface `IProblemStatement`;
`createdBy` is kept as an opaque string key, `createdAt`/`updatedAt` are
system managed and omitted). An absent `id` is modelled by `""`, matching
the JS falsiness test `!this.id`. -/
structure ProblemStatement where
  id : String
  title : String
  abstract : String
  technologies : List String
  domain : String
  category : String
  difficulty : String
  duration : String
  deliverables : List String
  prerequisites : List String
  learningOutcomes : List String
  status : String
  featured : Bool
  tags : List String
  createdBy : String
  viewCount : Nat
  deriving DecidableEq

/-- The fixed 8-entry domain-to-prefix table `domainPrefixMap`. -/
def domainPrefixMap : List (String × String) :=
  [("AI & Machine Learning", "AIM"),
   ("IoT & Embedded Systems", "IOT"),
   ("Cloud Computing", "CLD"),
   ("Web & Mobile Applications", "WEB"),
   ("Cybersecurity & Blockchain", "CYS"),
   ("Data Science & Analytics", "DAT"),
   ("Networking & Communication", "NET"),
   ("Mechanical / ECE Projects", "MEC")]

/-- Model of `domainPrefixMap[domain] || 'GEN'`. -/
def prefixForDomain (d : String) : String :=
  (domainPrefixMap.lookup d).getD "GEN"

/-- Model of `ProblemStatement.countDocuments({ domain })` against an
explicit collection. -/
def countDocumentsWithDomain (db : List ProblemStatement) (d : String) : Nat :=
  (db.filter (fun r => r.domain == d)).length

/-- Decimal digit character with value `d`, for `d < 10`. -/
def digitChar (d : Nat) : Char := Char.ofNat (48 + d)

/-- Fuel-driven most-significant-first decimal digit list; `natDigitsAux f n`
is the decimal representation of `n` whenever `n < f`. -/
def natDigitsAux : Nat → Nat → List Char
  | 0, _ => []
  | f + 1, n =>
      if n < 10 then [digitChar n]
      else natDigitsAux f (n / 10) ++ [digitChar (n % 10)]

/-- Model of the JS conversion `String(n)` for a natural number `n`,
as a char list. -/
def natToChars (n : Nat) : List Char := natDigitsAux (n + 1) n

/-- Model of the JS call `s.padStart(3, '0')` on char lists: when the list
is shorter than 3 it is left-padded with `'0'` up to length 3, otherwise it
is returned unchanged (`3 - l.length = 0`). -/
def padStartZero3 (l : List Char) : List Char :=
  List.replicate (3 - l.length) '0' ++ l

/-- Value of a decimal digit character (used to state that the padded
sequence suffix determines the sequence number). -/
def digitVal (c : Char) : Nat := c.toNat - 48

/-- Decimal value of a most-significant-first digit char list. -/
def decValChars (l : List Char) : Nat :=
  l.foldl (fun a c => 10 * a + digitVal c) 0

/-- The identifier generated by the pre-save hook for domain `d` when
`count` documents with that domain already exist:
`domainPrefix + String(count + 1).padStart(3, '0')`. -/
def generatedId (d : String) (count : Nat) : String :=
  prefixForDomain d ++ String.mk (padStartZero3 (natToChars (count + 1)))

/-- Model of the `pre('save')` hook of `ProblemStatementSchema`: if the
`id` is missing (empty) or does not match the format regex, it is replaced
by the generated domain-prefixed sequence identifier; otherwise the record
is untouched. -/
def preSave (db : List ProblemStatement) (r : ProblemStatement) : ProblemStatement :=
  if r.id == "" || !matchesIdFormat r.id then
    { r with id := generatedId r.domain (countDocumentsWithDomain db r.domain) }
  else r

/-- Saving a batch of records strictly sequentially: each record runs the
pre-save hook against the current collection and is then appended to it. -/
def saveAll : List ProblemStatement → List ProblemStatement → List ProblemStatement
  | db, [] => db
  | db, r :: rest => saveAll (db ++ [preSave db r]) rest

/-- JS `trim()` whitespace test, for the characters occurring here. -/
def isWsChar (c : Char) : Bool := c = ' ' || c = '\t' || c = '\n' || c = '\r'

/-- Model of JS `s.trim()`. -/
def jsTrim (s : String) : String :=
  String.mk (((s.data.dropWhile isWsChar).reverse.dropWhile isWsChar).reverse)

/-- Model of JS `s.split(sep)` for a one-character separator: splitting
`""` yields `[""]`, and separators at the ends produce empty parts. -/
def splitChars (sep : Char) : List Char → List (List Char)
  | [] => [[]]
  | c :: rest =>
      if c = sep then [] :: splitChars sep rest
      else
        match splitChars sep rest with
        | [] => [[c]]
        | part :: parts => (c :: part) :: parts

/-- Model of JS `s.split(';')` on strings. -/
def jsSplitSemi (s : String) : List String :=
  (splitChars ';' s.data).map String.mk

/-- Model of `parseArrayField` in `bulkUploadProblems`: an empty or blank
cell yields `[]`; otherwise the cell is split on `;`, each part trimmed,
and empty parts discarded. -/
def parseArrayField (field : String) : List String :=
  if field == "" || jsTrim field == "" then []
  else ((jsSplitSemi field).map jsTrim).filter (fun item => !(item == ""))

/-- Model of JS `toLowerCase()` for the ASCII range used here. -/
def jsToLower (s : String) : String :=
  String.mk (s.data.map (fun c =>
    if 'A' ≤ c && c ≤ 'Z' then Char.ofNat (c.toNat + 32) else c))

/-- One parsed CSV row as produced by the parsing stage: a mapping from
the known column names to raw cell strings, an absent column being the
empty string (JS `undefined` is falsy exactly like `''` in every use the
controller makes of a cell). -/
structure CsvRow where
  title : String
  abstract : String
  domain : String
  category : String
  difficulty : String
  duration : String
  technologies : String
  deliverables : String
  prerequisites : String
  learningOutcomes : String
  tags : String
  status : String
  featured : String
  deriving DecidableEq

/-- The allowed domain values listed in `bulkUploadProblems`. -/
def validDomains : List String :=
  ["AI & Machine Learning",
   "IoT & Embedded Systems",
   "Cloud Computing",
   "Web & Mobile Applications",
   "Cybersecurity & Blockchain",
   "Data Science & Analytics",
   "Networking & Communication",
   "Mechanical / ECE Projects"]

/-- The allowed category values listed in `bulkUploadProblems`. -/
def validCategories : List String := ["Major", "Minor", "Capstone"]

/-- The allowed difficulty values listed in `bulkUploadProblems`. -/
def validDifficulties : List String := ["Beginner", "Intermediate", "Advanced"]

/-- The `validationErrors` accumulated for one row by `bulkUploadProblems`,
in source order: the six required-field checks, then the domain, category
and difficulty enum checks, none of them short-circuiting. -/
def validateRow (row : CsvRow) : List String :=
  (if row.title == "" || jsTrim row.title == "" then ["Title is required"] else []) ++
  (if row.abstract == "" || jsTrim row.abstract == "" then ["Abstract is required"] else []) ++
  (if row.domain == "" || jsTrim row.domain == "" then ["Domain is required"] else []) ++
  (if row.category == "" || jsTrim row.category == "" then ["Category is required"] else []) ++
  (if row.difficulty == "" || jsTrim row.difficulty == "" then ["Difficulty is required"] else []) ++
  (if row.duration == "" || jsTrim row.duration == "" then ["Duration is required"] else []) ++
  (if !(row.domain == "") && !(validDomains.contains (jsTrim row.domain)) then
    ["Invalid domain. Must be one of: " ++ String.intercalate ", " validDomains] else []) ++
  (if !(row.category == "") && !(validCategories.contains (jsTrim row.category)) then
    ["Invalid category. Must be one of: " ++ String.intercalate ", " validCategories] else []) ++
  (if !(row.difficulty == "") && !(validDifficulties.contains (jsTrim row.difficulty)) then
    ["Invalid difficulty. Must be one of: " ++ String.intercalate ", " validDifficulties] else [])

/-- The `problemData` document built from a validation-passing row and
handed to `ProblemStatement.create`. -/
structure ProblemData where
  title : String
  abstract : String
  domain : String
  category : String
  difficulty : String
  duration : String
  technologies : List String
  deliverables : List String
  prerequisites : List String
  learningOutcomes : List String
  tags : List String
  status : String
  featured : Bool
  createdBy : String
  deriving DecidableEq

/-- Model of the `problemData` object literal in `bulkUploadProblems`. -/
def mkProblemData (userId : String) (row : CsvRow) : ProblemData where
  title := jsTrim row.title
  abstract := jsTrim row.abstract
  domain := jsTrim row.domain
  category := jsTrim row.category
  difficulty := jsTrim row.difficulty
  duration := jsTrim row.duration
  technologies := parseArrayField row.technologies
  deliverables := parseArrayField row.deliverables
  prerequisites := parseArrayField row.prerequisites
  learningOutcomes := parseArrayField row.learningOutcomes
  tags := parseArrayField row.tags
  status := if jsTrim row.status == "" then "Draft" else jsTrim row.status
  featured := jsToLower row.featured == "true"
  createdBy := userId

/-- One entry of the `errors` array of the bulk-upload response. -/
structure ImportEntry where
  row : Nat
  field : String
  message : String
  deriving DecidableEq

/-- The running outcome of one bulk-upload call: the `results` object
(`imported`, `failed`, `errors`) together with the collection side effect
(`persisted` records the successful `ProblemStatement.create` calls in
order). -/
structure ImportState where
  imported : Nat
  failed : Nat
  errors : List ImportEntry
  persisted : List ProblemData
  deriving DecidableEq

/-- The per-row loop of `bulkUploadProblems` over the parsed rows, each
paired with its persistence oracle (`none` = `ProblemStatement.create`
succeeds, `some msg` = it throws with message `msg`); `rowNum` carries
the CSV row number `i + 2` of the head row. -/
def processRows (userId : String) : Nat → List (CsvRow × Option String) → ImportState → ImportState
  | _, [], st => st
  | rowNum, (row, oracle) :: rest, st =>
      if (validateRow row).isEmpty then
        match oracle with
        | none =>
            processRows userId (rowNum + 1) rest
              { st with
                imported := st.imported + 1
                persisted := st.persisted ++ [mkProblemData userId row] }
        | some msg =>
            processRows userId (rowNum + 1) rest
              { st with
                failed := st.failed + 1
                errors := st.errors ++ [⟨rowNum, "database", msg⟩] }
      else
        processRows userId (rowNum + 1) rest
          { st with
            failed := st.failed + 1
            errors := st.errors ++ (validateRow row).map (fun m => ⟨rowNum, "validation", m⟩) }

/-- Model of `bulkUploadProblems` from the parsed row list onwards: the
loop starts at CSV row number 2 (row 1 is the header) with zero counts. -/
def bulkUploadProblems (userId : String) (rows : List (CsvRow × Option String)) : ImportState :=
  processRows userId 2 rows ⟨0, 0, [], []⟩

/-- Raw CSV parsing state: position inside/outside a quoted cell, the
current cell (reversed), the current record (cells reversed in order),
and the completed records (reversed). -/
structure CsvState where
  inQuotes : Bool
  curField : List Char
  curRecord : List (List Char)
  outRecords : List (List (List Char))

/-- Modelled from the spec: one step of the external `csv-parser` stream
decoder that `bulkUploadProblems` pipes the byte stream through ("decode
the stream into an ordered sequence of row mappings"), at its interface:
standard CSV with `"`-delimited cells (quotes toggle quoting and are not
part of the cell), `,` separating cells and `\n` separating records when
outside quotes. -/
def csvStep (s : CsvState) (c : Char) : CsvState :=
  if c = '"' then { s with inQuotes := !s.inQuotes }
  else if c = ',' && !s.inQuotes then
    { s with curField := [], curRecord := s.curField.reverse :: s.curRecord }
  else if c = '\n' && !s.inQuotes then
    { s with
      curField := []
      curRecord := []
      outRecords := (s.curField.reverse :: s.curRecord).reverse :: s.outRecords }
  else { s with curField := c :: s.curField }

/-- Runs `csvStep` over the input; the state is re-destructured at every
step so that evaluation keeps it in constructor form. -/
def csvRun : CsvState → List Char → CsvState
  | s, [] => s
  | s, c :: cs =>
      match csvStep s c with
      | ⟨true, f, r, a⟩ => csvRun ⟨true, f, r, a⟩ cs
      | ⟨false, f, r, a⟩ => csvRun ⟨false, f, r, a⟩ cs

/-- Modelled from the spec: finishing the `csv-parser` stream decode, the
last record being emitted when the input does not end in a newline. -/
def csvFinish (s : CsvState) : List (List String) :=
  (if s.curField.isEmpty && s.curRecord.isEmpty then s.outRecords.reverse
   else ((s.curField.reverse :: s.curRecord).reverse :: s.outRecords).reverse).map
    (fun record => record.map String.mk)

/-- Modelled from the spec: the record list the `csv-parser` stream
decoder produces from a byte stream. -/
def csvRecords (content : String) : List (List String) :=
  csvFinish (csvRun ⟨false, [], [], []⟩ content.data)

/-- Modelled from the spec: how `csv-parser` turns the header record and
one data record into a row mapping (column name to raw cell, missing
columns empty). -/
def mkCsvRow (header : List String) (cells : List String) : CsvRow :=
  let get := fun (name : String) => (((header.zip cells).lookup name).getD "")
  { title := get "title"
    abstract := get "abstract"
    domain := get "domain"
    category := get "category"
    difficulty := get "difficulty"
    duration := get "duration"
    technologies := get "technologies"
    deliverables := get "deliverables"
    prerequisites := get "prerequisites"
    learningOutcomes := get "learningOutcomes"
    tags := get "tags"
    status := get "status"
    featured := get "featured" }

/-- Modelled from the spec: the full parse stage of `bulkUploadProblems`,
the first record giving the column names of the following rows. -/
def parseCsv (content : String) : List CsvRow :=
  match csvRecords content with
  | [] => []
  | header :: dataRecords => dataRecords.map (mkCsvRow header)

/-- Line 0 (header line) of the `csvContent` template literal of `downloadTemplate`. -/
def templateLine0 : String :=
  "title,abstract,domain,category,difficulty,duration,technologies,deliverables,prerequisites,learningOutcomes,tags,status,featured"

/-- Line 1 (example row 1) of the `csvContent` template literal of `downloadTemplate`. -/
def templateLine1 : String :=
  "\"AI-Powered Personal Finance Manager\",\"Develop an intelligent personal finance management system that uses machine learning algorithms to analyze user spending patterns and provide personalized financial advice. The system will include features like budget tracking, expense categorization, investment recommendations, and financial goal setting.\",\"AI & Machine Learning\",\"Major\",\"Advanced\",\"12-16 weeks\",\"Python;TensorFlow;React;Node.js;MongoDB\",\"Complete source code;User interface;Documentation;Deployment guide\",\"Strong programming skills;Basic ML knowledge;Web development experience\",\"Implement ML algorithms;Design responsive web applications;Work with financial APIs\",\"Machine Learning;Finance;Web Development;Data Analysis\",\"Draft\",\"false\""

/-- Line 2 (example row 2) of the `csvContent` template literal of `downloadTemplate`. -/
def templateLine2 : String :=
  "\"IoT Smart Home System\",\"Create a comprehensive IoT-based smart home automation system that allows users to control various home appliances and monitor environmental conditions remotely. The system will include sensors for temperature, humidity, motion detection, and smart switches for controlling lights and fans.\",\"IoT & Embedded Systems\",\"Major\",\"Intermediate\",\"10-14 weeks\",\"Arduino;Raspberry Pi;Python;MQTT;React Native\",\"Hardware prototype;Mobile app;Documentation;Circuit diagrams\",\"Electronics basics;Programming skills;IoT concepts\",\"Work with IoT devices;Develop mobile applications;Understand sensor integration\",\"IoT;Smart Home;Automation;Mobile Development\",\"Draft\",\"false\""

/-- Line 3 (example row 3) of the `csvContent` template literal of `downloadTemplate`. -/
def templateLine3 : String :=
  "\"Blockchain-Based Supply Chain Tracking\",\"Implement a blockchain solution for tracking products throughout the supply chain, ensuring transparency and authenticity. The system will allow consumers to verify product origins and track the journey from manufacturer to retailer.\",\"Cybersecurity & Blockchain\",\"Major\",\"Advanced\",\"14-18 weeks\",\"Solidity;Web3.js;React;Node.js;IPFS\",\"Smart contracts;Web application;Documentation;Test cases\",\"Blockchain fundamentals;Smart contract development;Web3 technologies\",\"Develop smart contracts;Build decentralized applications;Understand supply chain processes\",\"Blockchain;Supply Chain;Web3;Smart Contracts\",\"Draft\",\"false\""

/-- Line 4 (example row 4) of the `csvContent` template literal of `downloadTemplate`. -/
def templateLine4 : String :=
  "\"Cloud-Based E-Learning Platform\",\"Build a scalable e-learning platform using cloud technologies that supports video streaming, real-time collaboration, and progress tracking. The platform will include features like course creation, student enrollment, assignment submission, and performance analytics.\",\"Cloud Computing\",\"Major\",\"Intermediate\",\"12-16 weeks\",\"AWS;React;Node.js;MongoDB;Docker\",\"Cloud deployment;Web application;API documentation;Database schema\",\"Cloud computing basics;Web development;Database design\",\"Deploy applications to cloud;Implement real-time features;Design scalable architectures\",\"Cloud Computing;E-Learning;Real-time Applications;Scalability\",\"Draft\",\"false\""

/-- Line 5 (example row 5) of the `csvContent` template literal of `downloadTemplate`. -/
def templateLine5 : String :=
  "\"Cybersecurity Threat Detection System\",\"Develop an AI-powered cybersecurity system that monitors network traffic and detects potential threats in real-time. The system will use machine learning algorithms to identify suspicious patterns and alert administrators about potential security breaches.\",\"Cybersecurity & Blockchain\",\"Major\",\"Advanced\",\"16-20 weeks\",\"Python;TensorFlow;Kafka;Elasticsearch;React\",\"Threat detection engine;Dashboard;Documentation;Test datasets\",\"Cybersecurity knowledge;Machine learning;Network protocols\",\"Implement ML-based threat detection;Build monitoring dashboards;Understand network security\",\"Cybersecurity;Machine Learning;Network Security;Real-time Processing\",\"Draft\",\"false\""

/-- The exact byte output of `downloadTemplate`: its `csvContent`
template literal, the six lines above joined by the newlines the template
literal contains (no trailing newline). -/
def templateCsv : String :=
  templateLine0 ++ "\n" ++ templateLine1 ++ "\n" ++ templateLine2 ++ "\n" ++
    templateLine3 ++ "\n" ++ templateLine4 ++ "\n" ++ templateLine5


/-- The error entries `bulkUploadProblems` records for a single row with
row number `rowNum`: one entry per validation failure (field
`"validation"`), else one `"database"` entry when the persistence attempt
throws, else none. -/
def rowErrors (rowNum : Nat) (row : CsvRow) (oracle : Option String) : List ImportEntry :=
  if (validateRow row).isEmpty then
    match oracle with
    | none => []
    | some msg => [⟨rowNum, "database", msg⟩]
  else (validateRow row).map (fun m => ⟨rowNum, "validation", m⟩)

/-- The error entries of a whole batch, the head row carrying row number
`rowNum`; used to characterise the `errors` array of the response. -/
def errorsFrom : Nat → List (CsvRow × Option String) → List ImportEntry
  | _, [] => []
  | rowNum, (row, oracle) :: rest => rowErrors rowNum row oracle ++ errorsFrom (rowNum + 1) rest

/-- The number of rows of a batch that fail row-level validation. -/
def countFailingRows (rows : List (CsvRow × Option String)) : Nat :=
  rows.countP (fun p => !(validateRow p.1).isEmpty)

/-- A CSV row every validation check accepts, used to instantiate the
universally quantified theorems below at a concrete input. -/
def sampleRow : CsvRow where
  title := "Sample Problem"
  abstract := "A sample abstract."
  domain := "Cloud Computing"
  category := "Major"
  difficulty := "Beginner"
  duration := "8 weeks"
  technologies := "AWS;Docker"
  deliverables := "Report"
  prerequisites := ""
  learningOutcomes := ""
  tags := ""
  status := ""
  featured := ""

/-- A stored record with a format-valid manually assigned identifier,
used to instantiate the universally quantified theorems below. -/
def sampleStored : ProblemStatement where
  id := "AIM001"
  title := "Stored"
  abstract := "Stored abstract"
  technologies := []
  domain := "AI & Machine Learning"
  category := "Major"
  difficulty := "Beginner"
  duration := "8 weeks"
  deliverables := []
  prerequisites := []
  learningOutcomes := []
  status := "Draft"
  featured := false
  tags := []
  createdBy := "admin"
  viewCount := 0

/-- A candidate record with no identifier, used to instantiate the
universally quantified theorems below. -/
def sampleUnsaved : ProblemStatement where
  id := ""
  title := "New"
  abstract := "New abstract"
  technologies := []
  domain := "Cloud Computing"
  category := "Major"
  difficulty := "Beginner"
  duration := "8 weeks"
  deliverables := []
  prerequisites := []
  learningOutcomes := []
  status := "Draft"
  featured := false
  tags := []
  createdBy := "admin"
  viewCount := 0


/-- Data row 1 of the template CSV, as parsed. -/
def templateRow1 : CsvRow where
  title := "AI-Powered Personal Finance Manager"
  abstract := "Develop an intelligent personal finance management system that uses machine learning algorithms to analyze user spending patterns and provide personalized financial advice. The system will include features like budget tracking, expense categorization, investment recommendations, and financial goal setting."
  domain := "AI & Machine Learning"
  category := "Major"
  difficulty := "Advanced"
  duration := "12-16 weeks"
  technologies := "Python;TensorFlow;React;Node.js;MongoDB"
  deliverables := "Complete source code;User interface;Documentation;Deployment guide"
  prerequisites := "Strong programming skills;Basic ML knowledge;Web development experience"
  learningOutcomes := "Implement ML algorithms;Design responsive web applications;Work with financial APIs"
  tags := "Machine Learning;Finance;Web Development;Data Analysis"
  status := "Draft"
  featured := "false"

/-- Data row 2 of the template CSV, as parsed. -/
def templateRow2 : CsvRow where
  title := "IoT Smart Home System"
  abstract := "Create a comprehensive IoT-based smart home automation system that allows users to control various home appliances and monitor environmental conditions remotely. The system will include sensors for temperature, humidity, motion detection, and smart switches for controlling lights and fans."
  domain := "IoT & Embedded Systems"
  category := "Major"
  difficulty := "Intermediate"
  duration := "10-14 weeks"
  technologies := "Arduino;Raspberry Pi;Python;MQTT;React Native"
  deliverables := "Hardware prototype;Mobile app;Documentation;Circuit diagrams"
  prerequisites := "Electronics basics;Programming skills;IoT concepts"
  learningOutcomes := "Work with IoT devices;Develop mobile applications;Understand sensor integration"
  tags := "IoT;Smart Home;Automation;Mobile Development"
  status := "Draft"
  featured := "false"

/-- Data row 3 of the template CSV, as parsed. -/
def templateRow3 : CsvRow where
  title := "Blockchain-Based Supply Chain Tracking"
  abstract := "Implement a blockchain solution for tracking products throughout the supply chain, ensuring transparency and authenticity. The system will allow consumers to verify product origins and track the journey from manufacturer to retailer."
  domain := "Cybersecurity & Blockchain"
  category := "Major"
  difficulty := "Advanced"
  duration := "14-18 weeks"
  technologies := "Solidity;Web3.js;React;Node.js;IPFS"
  deliverables := "Smart contracts;Web application;Documentation;Test cases"
  prerequisites := "Blockchain fundamentals;Smart contract development;Web3 technologies"
  learningOutcomes := "Develop smart contracts;Build decentralized applications;Understand supply chain processes"
  tags := "Blockchain;Supply Chain;Web3;Smart Contracts"
  status := "Draft"
  featured := "false"

/-- Data row 4 of the template CSV, as parsed. -/
def templateRow4 : CsvRow where
  title := "Cloud-Based E-Learning Platform"
  abstract := "Build a scalable e-learning platform using cloud technologies that supports video streaming, real-time collaboration, and progress tracking. The platform will include features like course creation, student enrollment, assignment submission, and performance analytics."
  domain := "Cloud Computing"
  category := "Major"
  difficulty := "Intermediate"
  duration := "12-16 weeks"
  technologies := "AWS;React;Node.js;MongoDB;Docker"
  deliverables := "Cloud deployment;Web application;API documentation;Database schema"
  prerequisites := "Cloud computing basics;Web development;Database design"
  learningOutcomes := "Deploy applications to cloud;Implement real-time features;Design scalable architectures"
  tags := "Cloud Computing;E-Learning;Real-time Applications;Scalability"
  status := "Draft"
  featured := "false"

/-- Data row 5 of the template CSV, as parsed. -/
def templateRow5 : CsvRow where
  title := "Cybersecurity Threat Detection System"
  abstract := "Develop an AI-powered cybersecurity system that monitors network traffic and detects potential threats in real-time. The system will use machine learning algorithms to identify suspicious patterns and alert administrators about potential security breaches."
  domain := "Cybersecurity & Blockchain"
  category := "Major"
  difficulty := "Advanced"
  duration := "16-20 weeks"
  technologies := "Python;TensorFlow;Kafka;Elasticsearch;React"
  deliverables := "Threat detection engine;Dashboard;Documentation;Test datasets"
  prerequisites := "Cybersecurity knowledge;Machine learning;Network protocols"
  learningOutcomes := "Implement ML-based threat detection;Build monitoring dashboards;Understand network security"
  tags := "Cybersecurity;Machine Learning;Network Security;Real-time Processing"
  status := "Draft"
  featured := "false"


/-! Helper lemmas about the decimal representation. -/

theorem natDigitsAux_congr : ∀ (n f g : Nat), n < f → n < g →
    natDigitsAux f n = natDigitsAux g n := by
  intro n
  induction n using Nat.strong_induction_on with
  | _ n ih =>
    intro f g hf hg
    cases f with
    | zero => omega
    | succ fa =>
      cases g with
      | zero => omega
      | succ ga =>
        simp only [natDigitsAux]
        by_cases h10 : n < 10
        · simp [h10]
        · have hdiv : n / 10 < n := Nat.div_lt_self (by omega) (by omega)
          simp only [h10, if_false]
          rw [ih (n / 10) hdiv fa ga (by omega) (by omega)]

theorem natToChars_eq (n : Nat) : natToChars n =
    if n < 10 then [digitChar n]
    else natToChars (n / 10) ++ [digitChar (n % 10)] := by
  unfold natToChars
  by_cases h10 : n < 10
  · rw [if_pos h10]
    simp only [natDigitsAux]
    simp [h10]
  · rw [if_neg h10]
    have hdiv : n / 10 < n := Nat.div_lt_self (by omega) (by omega)
    conv_lhs => simp only [natDigitsAux]
    rw [if_neg h10]
    congr 1
    exact natDigitsAux_congr (n / 10) n (n / 10 + 1) hdiv (by omega)

theorem digitVal_digitChar (d : Nat) (h : d < 10) :
    digitVal (digitChar d) = d := by
  interval_cases d <;> decide

theorem isDigit09_digitChar (d : Nat) (h : d < 10) :
    isDigit09 (digitChar d) = true := by
  interval_cases d <;> decide

theorem foldl_decVal_natToChars (n : Nat) : ∀ a : Nat,
    List.foldl (fun a c => 10 * a + digitVal c) a (natToChars n)
      = a * 10 ^ (natToChars n).length + n := by
  induction n using Nat.strong_induction_on with
  | _ n ih =>
    intro a
    rw [natToChars_eq n]
    by_cases h10 : n < 10
    · simp [h10, digitVal_digitChar n h10]
      ring
    · have hdiv : n / 10 < n := Nat.div_lt_self (by omega) (by omega)
      have hdm := Nat.div_add_mod n 10
      simp only [h10, if_false, List.foldl_append, List.length_append,
        List.foldl_cons, List.foldl_nil, List.length_cons, List.length_nil]
      rw [ih (n / 10) hdiv a]
      rw [digitVal_digitChar (n % 10) (Nat.mod_lt _ (by omega))]
      calc 10 * (a * 10 ^ (natToChars (n / 10)).length + n / 10) + n % 10
          = a * 10 ^ ((natToChars (n / 10)).length + 1)
              + (10 * (n / 10) + n % 10) := by ring
        _ = a * 10 ^ ((natToChars (n / 10)).length + 1) + n := by rw [hdm]

theorem decValChars_natToChars (n : Nat) : decValChars (natToChars n) = n := by
  unfold decValChars
  rw [foldl_decVal_natToChars n 0]
  simp

theorem foldl_decVal_zeros (k : Nat) :
    List.foldl (fun a c => 10 * a + digitVal c) 0 (List.replicate k '0') = 0 := by
  induction k with
  | zero => rfl
  | succ m ih => simpa [List.replicate_succ] using ih

theorem decValChars_padStartZero3 (l : List Char) :
    decValChars (padStartZero3 l) = decValChars l := by
  unfold decValChars padStartZero3
  rw [List.foldl_append, foldl_decVal_zeros]

theorem natToChars_len1 {n : Nat} (h : n < 10) : (natToChars n).length = 1 := by
  rw [natToChars_eq]; simp [h]

theorem natToChars_len_succ {n : Nat} (h : 10 ≤ n) :
    (natToChars n).length = (natToChars (n / 10)).length + 1 := by
  rw [natToChars_eq]
  simp [show ¬ n < 10 by omega]

theorem natToChars_len_pos (n : Nat) : 1 ≤ (natToChars n).length := by
  rw [natToChars_eq]
  split <;> simp

theorem natToChars_len_le3 {n : Nat} (h : n ≤ 999) : (natToChars n).length ≤ 3 := by
  by_cases h1 : n < 10
  · rw [natToChars_len1 h1]; omega
  · by_cases h2 : n < 100
    · rw [natToChars_len_succ (by omega), natToChars_len1 (by omega)]
      omega
    · rw [natToChars_len_succ (by omega), natToChars_len_succ (by omega),
        natToChars_len1 (by omega)]

theorem natToChars_len_ge4 {n : Nat} (h : 1000 ≤ n) : 4 ≤ (natToChars n).length := by
  rw [natToChars_len_succ (by omega), natToChars_len_succ (by omega),
    natToChars_len_succ (by omega)]
  have := natToChars_len_pos (n / 10 / 10 / 10)
  omega

theorem natToChars_digits (n : Nat) : ∀ c ∈ natToChars n, isDigit09 c = true := by
  induction n using Nat.strong_induction_on with
  | _ n ih =>
    intro c hc
    rw [natToChars_eq] at hc
    by_cases h10 : n < 10
    · simp [h10] at hc
      rw [hc]; exact isDigit09_digitChar n h10
    · have hdiv : n / 10 < n := Nat.div_lt_self (by omega) (by omega)
      simp [h10] at hc
      rcases hc with hc | hc
      · exact ih (n / 10) hdiv c hc
      · rw [hc]; exact isDigit09_digitChar (n % 10) (Nat.mod_lt _ (by omega))

/-! Helper lemmas about the ID format and the generated identifier. -/

theorem padStartZero3_length (l : List Char) :
    (padStartZero3 l).length = max 3 l.length := by
  simp [padStartZero3]
  omega

theorem padStartZero3_digits {l : List Char} (h : ∀ c ∈ l, isDigit09 c = true) :
    ∀ c ∈ padStartZero3 l, isDigit09 c = true := by
  intro c hc
  simp only [padStartZero3, List.mem_append] at hc
  rcases hc with hc | hc
  · rw [List.eq_of_mem_replicate hc]; decide
  · exact h c hc

theorem matchFmtChars_33 {a b c x y z : Char} (ha : isUpperAZ a = true)
    (hb : isUpperAZ b = true) (hc : isUpperAZ c = true)
    (hx : isDigit09 x = true) (hy : isDigit09 y = true)
    (hz : isDigit09 z = true) :
    matchFmtChars [a, b, c, x, y, z] = true := by
  simp [matchFmtChars, ha, hb, hc, hx, hy, hz]

theorem matchFmtChars_long {l : List Char} (h : 7 ≤ l.length) :
    matchFmtChars l = false := by
  rcases l with _ | ⟨a, _ | ⟨b, _ | ⟨c, _ | ⟨d, _ | ⟨e, _ | ⟨f, _ | ⟨g, t⟩⟩⟩⟩⟩⟩⟩ <;>
    first
      | rfl
      | (simp at h)

theorem prefixForDomain_mem (d : String) :
    prefixForDomain d ∈
      (["AIM", "IOT", "CLD", "WEB", "CYS", "DAT", "NET", "MEC", "GEN"] : List String) := by
  unfold prefixForDomain domainPrefixMap
  simp only [List.lookup]
  repeat' split <;> simp_all

theorem prefixForDomain_shape (d : String) :
    ∃ a b c, (prefixForDomain d).data = [a, b, c] ∧
      isUpperAZ a = true ∧ isUpperAZ b = true ∧ isUpperAZ c = true := by
  have h := prefixForDomain_mem d
  simp only [List.mem_cons, List.not_mem_nil, or_false] at h
  rcases h with h | h | h | h | h | h | h | h | h <;>
    rw [h] <;> exact ⟨_, _, _, rfl, by decide, by decide, by decide⟩

theorem matchesIdFormat_generatedId (d : String) (c : Nat) :
    matchesIdFormat (generatedId d c) = true ↔ c ≤ 998 := by
  obtain ⟨a, b, e, hp, ha, hb, he⟩ := prefixForDomain_shape d
  have hdata : (generatedId d c).data
      = (prefixForDomain d).data ++ padStartZero3 (natToChars (c + 1)) := by
    simp [generatedId, String.data_append]
  constructor
  · intro hfmt
    by_contra hgt
    have h4 : 4 ≤ (natToChars (c + 1)).length := natToChars_len_ge4 (by omega)
    have hlen : 7 ≤ (generatedId d c).data.length := by
      rw [hdata, List.length_append, hp, padStartZero3_length]
      simp
      omega
    rw [matchesIdFormat, matchFmtChars_long hlen] at hfmt
    exact Bool.false_ne_true hfmt
  · intro hle
    have hle3 : (natToChars (c + 1)).length ≤ 3 := natToChars_len_le3 (by omega)
    have hlen3 : (padStartZero3 (natToChars (c + 1))).length = 3 := by
      rw [padStartZero3_length]; omega
    have hdig : ∀ ch ∈ padStartZero3 (natToChars (c + 1)), isDigit09 ch = true :=
      padStartZero3_digits (natToChars_digits (c + 1))
    obtain ⟨x, y, z, hxyz⟩ := List.length_eq_three.1 hlen3
    rw [matchesIdFormat, hdata, hp, hxyz]
    rw [hxyz] at hdig
    exact matchFmtChars_33 ha hb he (hdig x (by simp)) (hdig y (by simp))
      (hdig z (by simp))

theorem generatedId_ne_empty (d : String) (c : Nat) : generatedId d c ≠ "" := by
  obtain ⟨a, b, e, hp, -, -, -⟩ := prefixForDomain_shape d
  intro h
  have hdata : (generatedId d c).data
      = (prefixForDomain d).data ++ padStartZero3 (natToChars (c + 1)) := by
    simp [generatedId, String.data_append]
  have : (generatedId d c).data = [] := by rw [h]
  rw [hdata, hp] at this
  simp at this

theorem generatedId_inj (d : String) {m n : Nat}
    (h : generatedId d m = generatedId d n) : m = n := by
  unfold generatedId at h
  have hdata := congrArg String.data h
  rw [String.data_append, String.data_append] at hdata
  have htail := List.append_cancel_left hdata
  have htail2 : padStartZero3 (natToChars (m + 1)) = padStartZero3 (natToChars (n + 1)) :=
    htail
  have hm := congrArg decValChars htail2
  rw [decValChars_padStartZero3, decValChars_padStartZero3,
    decValChars_natToChars, decValChars_natToChars] at hm
  omega

/-! Helper lemmas about the pre-save hook and sequential saving. -/

theorem preSave_invalid {db : List ProblemStatement} {r : ProblemStatement}
    (h : r.id = "" ∨ matchesIdFormat r.id = false) :
    preSave db r = { r with id := generatedId r.domain (countDocumentsWithDomain db r.domain) } := by
  unfold preSave
  rcases h with h | h <;> simp [h]

theorem preSave_valid {db : List ProblemStatement} {r : ProblemStatement}
    (h : matchesIdFormat r.id = true) : preSave db r = r := by
  have hne : r.id ≠ "" := by
    intro he
    rw [he] at h
    exact absurd h (by decide)
  unfold preSave
  simp [h, hne]

theorem preSave_domain (db : List ProblemStatement) (r : ProblemStatement) :
    (preSave db r).domain = r.domain := by
  unfold preSave; split <;> rfl

theorem countDocumentsWithDomain_append (db : List ProblemStatement)
    (r : ProblemStatement) (d : String) :
    countDocumentsWithDomain (db ++ [r]) d
      = countDocumentsWithDomain db d + (if r.domain == d then 1 else 0) := by
  simp only [countDocumentsWithDomain, List.filter_append, List.length_append]
  congr 1
  split <;> simp_all

theorem saveAll_decompose : ∀ (rs db : List ProblemStatement),
    ∃ tail, saveAll db rs = db ++ tail := by
  intro rs
  induction rs with
  | nil => exact fun db => ⟨[], by simp [saveAll]⟩
  | cons r rest ih =>
      intro db
      obtain ⟨t, ht⟩ := ih (db ++ [preSave db r])
      exact ⟨preSave db r :: t, by simp [saveAll, ht]⟩

theorem saveAll_new_ids (d : String) : ∀ (rs db : List ProblemStatement) (c : Nat),
    (∀ r ∈ rs, r.domain = d ∧ (r.id = "" ∨ matchesIdFormat r.id = false)) →
    countDocumentsWithDomain db d = c →
    ((saveAll db rs).drop db.length).map ProblemStatement.id
      = (List.range rs.length).map (fun k => generatedId d (c + k)) := by
  intro rs
  induction rs with
  | nil =>
      intro db c _ _
      simp [saveAll, List.drop_length]
  | cons r rest ih =>
      intro db c hall hcount
      have hr := hall r (List.mem_cons_self r rest)
      have hrest : ∀ x ∈ rest, x.domain = d ∧ (x.id = "" ∨ matchesIdFormat x.id = false) :=
        fun x hx => hall x (List.mem_cons_of_mem r hx)
      have hpre : preSave db r = { r with id := generatedId d c } := by
        rw [preSave_invalid hr.2, hr.1, hcount]
      have hcount' : countDocumentsWithDomain (db ++ [preSave db r]) d = c + 1 := by
        rw [countDocumentsWithDomain_append, hcount, preSave_domain, hr.1]
        simp
      have hih := ih (db ++ [preSave db r]) (c + 1) hrest hcount'
      obtain ⟨tail, htail⟩ := saveAll_decompose rest (db ++ [preSave db r])
      have hdrop1 : (saveAll (db ++ [preSave db r]) rest).drop db.length
          = preSave db r :: tail := by
        rw [htail, List.append_assoc]
        rw [List.drop_left]
        rfl
      have hdrop2 : (saveAll (db ++ [preSave db r]) rest).drop (db ++ [preSave db r]).length
          = tail := by
        rw [htail, List.drop_left]
      rw [hdrop2] at hih
      show ((saveAll (db ++ [preSave db r]) rest).drop db.length).map ProblemStatement.id
          = (List.range (rest.length + 1)).map (fun k => generatedId d (c + k))
      rw [hdrop1]
      rw [List.range_succ_eq_map]
      simp only [List.map_cons, List.map_map]
      have hfun : ((fun k => generatedId d (c + k)) ∘ Nat.succ)
          = (fun k => generatedId d (c + 1 + k)) := by
        funext k
        simp only [Function.comp]
        congr 1
        omega
      rw [hfun, hih, hpre]
      simp

/-! Helper lemmas about the per-row import loop. -/

theorem processRows_counts (u : String) :
    ∀ (rows : List (CsvRow × Option String)) (n : Nat) (st : ImportState),
    (∀ p ∈ rows, validateRow p.1 = [] → p.2 = none) →
    (processRows u n rows st).imported
        = st.imported + (rows.length - countFailingRows rows) ∧
      (processRows u n rows st).failed = st.failed + countFailingRows rows ∧
      st.errors.length + countFailingRows rows ≤ (processRows u n rows st).errors.length := by
  intro rows
  induction rows with
  | nil =>
      intro n st _
      simp [processRows, countFailingRows]
  | cons p rest ih =>
      intro n st hor
      obtain ⟨row, oracle⟩ := p
      have hrest : ∀ q ∈ rest, validateRow q.1 = [] → q.2 = none :=
        fun q hq => hor q (List.mem_cons_of_mem _ hq)
      have hcle : countFailingRows rest ≤ rest.length := by
        unfold countFailingRows
        exact List.countP_le_length _
      by_cases hval : (validateRow row).isEmpty
      · have hnone : oracle = none :=
          hor (row, oracle) (List.mem_cons_self _ _) (List.isEmpty_iff.1 hval)
        subst hnone
        have hcf : countFailingRows ((row, none) :: rest) = countFailingRows rest := by
          simp [countFailingRows, List.countP_cons, hval]
        obtain ⟨hi, hf, he⟩ := ih (n + 1)
          { st with imported := st.imported + 1
                    persisted := st.persisted ++ [mkProblemData u row] } hrest
        refine ⟨?_, ?_, ?_⟩
        · rw [show processRows u n ((row, none) :: rest) st
              = processRows u (n + 1) rest
                  { st with imported := st.imported + 1
                            persisted := st.persisted ++ [mkProblemData u row] } by
            simp [processRows, hval]]
          rw [hi, hcf]
          simp only [List.length_cons]
          omega
        · rw [show processRows u n ((row, none) :: rest) st
              = processRows u (n + 1) rest
                  { st with imported := st.imported + 1
                            persisted := st.persisted ++ [mkProblemData u row] } by
            simp [processRows, hval]]
          rw [hf, hcf]
        · rw [show processRows u n ((row, none) :: rest) st
              = processRows u (n + 1) rest
                  { st with imported := st.imported + 1
                            persisted := st.persisted ++ [mkProblemData u row] } by
            simp [processRows, hval]]
          rw [hcf]
          exact he
      · have hcf : countFailingRows ((row, oracle) :: rest) = countFailingRows rest + 1 := by
          simp [countFailingRows, List.countP_cons, hval]
        have hlenpos : 1 ≤ (validateRow row).length := by
          cases hv : validateRow row with
          | nil => rw [hv] at hval; simp at hval
          | cons a t => simp
        have hstep : processRows u n ((row, oracle) :: rest) st
            = processRows u (n + 1) rest
                { st with failed := st.failed + 1
                          errors := st.errors
                            ++ (validateRow row).map (fun m => ⟨n, "validation", m⟩) } := by
          simp [processRows, hval]
        obtain ⟨hi, hf, he⟩ := ih (n + 1)
          { st with failed := st.failed + 1
                    errors := st.errors
                      ++ (validateRow row).map (fun m => ⟨n, "validation", m⟩) } hrest
        have hii : (ImportState.mk st.imported (st.failed + 1)
            (st.errors ++ (validateRow row).map (fun m => ⟨n, "validation", m⟩))
            st.persisted).imported = st.imported := rfl
        have hif : (ImportState.mk st.imported (st.failed + 1)
            (st.errors ++ (validateRow row).map (fun m => ⟨n, "validation", m⟩))
            st.persisted).failed = st.failed + 1 := rfl
        have hie : (ImportState.mk st.imported (st.failed + 1)
            (st.errors ++ (validateRow row).map (fun m => ⟨n, "validation", m⟩))
            st.persisted).errors.length
            = st.errors.length + (validateRow row).length := by
          simp
        rw [hii] at hi
        rw [hif] at hf
        rw [hie] at he
        refine ⟨?_, ?_, ?_⟩
        · rw [hstep, hi, hcf]
          simp only [List.length_cons]
          omega
        · rw [hstep, hf, hcf]
          omega
        · rw [hstep, hcf]
          omega

theorem processRows_errors (u : String) :
    ∀ (rows : List (CsvRow × Option String)) (n : Nat) (st : ImportState),
    (processRows u n rows st).errors = st.errors ++ errorsFrom n rows := by
  intro rows
  induction rows with
  | nil =>
      intro n st
      simp [processRows, errorsFrom]
  | cons p rest ih =>
      intro n st
      obtain ⟨row, oracle⟩ := p
      by_cases hval : (validateRow row).isEmpty
      · cases oracle with
        | none =>
            rw [show processRows u n ((row, none) :: rest) st
                = processRows u (n + 1) rest
                    { st with imported := st.imported + 1
                              persisted := st.persisted ++ [mkProblemData u row] } by
              simp [processRows, hval]]
            rw [ih]
            simp [errorsFrom, rowErrors, hval]
        | some msg =>
            rw [show processRows u n ((row, some msg) :: rest) st
                = processRows u (n + 1) rest
                    { st with failed := st.failed + 1
                              errors := st.errors ++ [⟨n, "database", msg⟩] } by
              simp [processRows, hval]]
            rw [ih]
            simp [errorsFrom, rowErrors, hval]
      · rw [show processRows u n ((row, oracle) :: rest) st
            = processRows u (n + 1) rest
                { st with failed := st.failed + 1
                          errors := st.errors
                            ++ (validateRow row).map (fun m => ⟨n, "validation", m⟩) } by
          simp [processRows, hval]]
        rw [ih]
        simp [errorsFrom, rowErrors, hval]

theorem errorsFrom_row_ge : ∀ (rows : List (CsvRow × Option String)) (n : Nat),
    ∀ e ∈ errorsFrom n rows, n ≤ e.row := by
  intro rows
  induction rows with
  | nil => intro n e he; simp [errorsFrom] at he
  | cons p rest ih =>
      intro n e he
      obtain ⟨row, oracle⟩ := p
      simp only [errorsFrom, List.mem_append] at he
      rcases he with he | he
      · unfold rowErrors at he
        split at he
        · cases oracle with
          | none => simp at he
          | some msg =>
              simp at he
              rw [he]
        · simp at he
          obtain ⟨m, -, hm⟩ := he
          rw [← hm]
      · have := ih (n + 1) e he
        omega

theorem processRows_ok_step (u : String) (n : Nat) {row : CsvRow}
    (rest : List (CsvRow × Option String)) (st : ImportState)
    (h : validateRow row = []) :
    processRows u n ((row, none) :: rest) st
      = processRows u (n + 1) rest
          { st with imported := st.imported + 1
                    persisted := st.persisted ++ [mkProblemData u row] } := by
  simp [processRows, h]

theorem processRows_dbfail_step (u : String) (n : Nat) {row : CsvRow} (msg : String)
    (rest : List (CsvRow × Option String)) (st : ImportState)
    (h : validateRow row = []) :
    processRows u n ((row, some msg) :: rest) st
      = processRows u (n + 1) rest
          { st with failed := st.failed + 1
                    errors := st.errors ++ [⟨n, "database", msg⟩] } := by
  simp [processRows, h]

theorem processRows_invalid_step (u : String) (n : Nat) {row : CsvRow}
    (oracle : Option String) (rest : List (CsvRow × Option String)) (st : ImportState)
    (h : validateRow row ≠ []) :
    processRows u n ((row, oracle) :: rest) st
      = processRows u (n + 1) rest
          { st with failed := st.failed + 1
                    errors := st.errors
                      ++ (validateRow row).map (fun m => ⟨n, "validation", m⟩) } := by
  have hne : (validateRow row).isEmpty = false := by
    cases hv : validateRow row with
    | nil => exact absurd hv h
    | cons a t => simp
  simp [processRows, hne]

/-! Helper lemmas about the CSV decoding of the template. -/

theorem csvRun_append (s : CsvState) (xs ys : List Char) :
    csvRun s (xs ++ ys) = csvRun (csvRun s xs) ys := by
  induction xs generalizing s with
  | nil => rfl
  | cons c cs ih =>
      simp only [List.cons_append, csvRun]
      rcases h : csvStep s c with ⟨i, f, r, a⟩
      cases i <;> simp [ih]

theorem parseCsv_templateCsv : parseCsv templateCsv =
    [templateRow1, templateRow2, templateRow3, templateRow4, templateRow5] := by
  have hnl : ("\n" : String).data = ['\n'] := rfl
  have hdata : templateCsv.data =
      ((((((((((templateLine0.data ++ ['\n']) ++ templateLine1.data) ++ ['\n']) ++
        templateLine2.data) ++ ['\n']) ++ templateLine3.data) ++ ['\n']) ++
        templateLine4.data) ++ ['\n']) ++ templateLine5.data) := by
    simp only [templateCsv, String.data_append, hnl]
  unfold parseCsv csvRecords
  rw [hdata]
  simp only [csvRun_append]
  decide

/-! Helper lemmas about trimming and splitting. -/

theorem jsTrim_eq_empty_iff (s : String) :
    jsTrim s = "" ↔ ∀ c ∈ s.data, isWsChar c = true := by
  unfold jsTrim
  constructor
  · intro h c hc
    have hdata : (((s.data.dropWhile isWsChar).reverse.dropWhile isWsChar).reverse) = [] := by
      have := congrArg String.data h
      exact this
    rw [List.reverse_eq_nil_iff] at hdata
    have hall2 : ∀ c ∈ (s.data.dropWhile isWsChar).reverse, isWsChar c = true := by
      intro x hx
      have hsplit := List.takeWhile_append_dropWhile
        (p := isWsChar) (l := (s.data.dropWhile isWsChar).reverse)
      rw [hdata, List.append_nil] at hsplit
      rw [← hsplit] at hx
      exact List.mem_takeWhile_imp hx
    have hall3 : ∀ c ∈ s.data.dropWhile isWsChar, isWsChar c = true := by
      intro x hx
      exact hall2 x (List.mem_reverse.2 hx)
    have hsplit := List.takeWhile_append_dropWhile (p := isWsChar) (l := s.data)
    rw [← hsplit] at hc
    rcases List.mem_append.1 hc with hc | hc
    · exact List.mem_takeWhile_imp hc
    · exact hall3 c hc
  · intro h
    have : s.data.dropWhile isWsChar = [] :=
      List.dropWhile_eq_nil_iff.2 (fun c hc => h c hc)
    rw [this]
    rfl

theorem splitChars_chars_subset (sep : Char) : ∀ (l part : List Char),
    part ∈ splitChars sep l → ∀ c ∈ part, c ∈ l := by
  intro l
  induction l with
  | nil =>
      intro part hp c hc
      simp [splitChars] at hp
      rw [hp] at hc
      simp at hc
  | cons x rest ih =>
      intro part hp c hc
      by_cases hx : x = sep
      · rw [show splitChars sep (x :: rest) = [] :: splitChars sep rest by
          simp [splitChars, hx]] at hp
        rcases List.mem_cons.1 hp with hp | hp
        · rw [hp] at hc; simp at hc
        · exact List.mem_cons_of_mem _ (ih part hp c hc)
      · rw [show splitChars sep (x :: rest)
            = (match splitChars sep rest with
               | [] => [[x]]
               | part :: parts => (x :: part) :: parts) by
          simp [splitChars, hx]] at hp
        rcases hsp : splitChars sep rest with _ | ⟨p, ps⟩
        · rw [hsp] at hp
          simp at hp
          rw [hp] at hc
          simp at hc
          simp [hc]
        · rw [hsp] at hp
          rcases List.mem_cons.1 hp with hp | hp
          · rw [hp] at hc
            rcases List.mem_cons.1 hc with hc | hc
            · simp [hc]
            · exact List.mem_cons_of_mem _
                (ih p (by rw [hsp]; exact List.mem_cons_self p ps) c hc)
          · exact List.mem_cons_of_mem _
              (ih part (by rw [hsp]; exact List.mem_cons_of_mem p hp) c hc)

/-! Claim theorems. -/

/-- C1: when a record is saved with its custom identifier absent or not
matching `^[A-Z]{2,3}\d{3}$`, the pre-save hook assigns
`prefix(domain) ++ padStart(String(count + 1), 3, '0')` where `count` is
the number of already-stored records with the same domain (prefix from
the fixed 8-entry table, `GEN` for unmapped domains); consequently,
saving N such records for one domain strictly sequentially, starting from
a collection with no record of that domain, yields the identifiers
`generatedId d 0, …, generatedId d (N-1)` — that is,
`prefix(d)001 … prefix(d)00N` — with no gaps or repeats. -/
theorem c1_sequential_allocation :
    (∀ (db : List ProblemStatement) (r : ProblemStatement),
      r.id = "" ∨ matchesIdFormat r.id = false →
      preSave db r
        = { r with id := generatedId r.domain (countDocumentsWithDomain db r.domain) }) ∧
    (∀ (d : String) (db rs : List ProblemStatement),
      countDocumentsWithDomain db d = 0 →
      (∀ r ∈ rs, r.domain = d ∧ (r.id = "" ∨ matchesIdFormat r.id = false)) →
      ((saveAll db rs).drop db.length).map ProblemStatement.id
          = (List.range rs.length).map (fun k => generatedId d k) ∧
        (((saveAll db rs).drop db.length).map ProblemStatement.id).Nodup) := by
  constructor
  · intro db r h
    exact preSave_invalid h
  · intro d db rs hc hall
    have hids := saveAll_new_ids d rs db 0 hall hc
    have hfun : (fun k => generatedId d (0 + k)) = (fun k => generatedId d k) := by
      funext k
      simp
    rw [hfun] at hids
    refine ⟨hids, ?_⟩
    rw [hids]
    exact List.Nodup.map (fun a b hab => generatedId_inj d hab) (List.nodup_range _)

/-- Witness for C1: from an empty collection, two Cloud Computing records
with no identifier get `CLD001` and `CLD002`, distinct. -/
theorem c1_sequential_allocation_witness :
    preSave [] sampleUnsaved
        = { sampleUnsaved with
            id := generatedId sampleUnsaved.domain (countDocumentsWithDomain [] sampleUnsaved.domain) } ∧
      ((saveAll [] [sampleUnsaved, sampleUnsaved]).drop ([] : List ProblemStatement).length).map
          ProblemStatement.id
        = (List.range 2).map (fun k => generatedId "Cloud Computing" k) ∧
      (((saveAll [] [sampleUnsaved, sampleUnsaved]).drop
          ([] : List ProblemStatement).length).map ProblemStatement.id).Nodup := by
  refine ⟨c1_sequential_allocation.1 [] sampleUnsaved (Or.inl (by decide)), ?_, ?_⟩
  · exact (c1_sequential_allocation.2 "Cloud Computing" [] [sampleUnsaved, sampleUnsaved]
      (by decide) (by decide)).1
  · exact (c1_sequential_allocation.2 "Cloud Computing" [] [sampleUnsaved, sampleUnsaved]
      (by decide) (by decide)).2

/-- C2: a record whose identifier already matches `^[A-Z]{2,3}\d{3}$` is
returned by the pre-save hook completely unchanged, whatever the
collection contents; and in every case the hook can only change the `id`
field — every other field of the record is preserved. -/
theorem c2_manual_id_preserved :
    (∀ (db : List ProblemStatement) (r : ProblemStatement),
      matchesIdFormat r.id = true → preSave db r = r) ∧
    (∀ (db : List ProblemStatement) (r : ProblemStatement),
      (preSave db r).title = r.title ∧
      (preSave db r).abstract = r.abstract ∧
      (preSave db r).technologies = r.technologies ∧
      (preSave db r).domain = r.domain ∧
      (preSave db r).category = r.category ∧
      (preSave db r).difficulty = r.difficulty ∧
      (preSave db r).duration = r.duration ∧
      (preSave db r).deliverables = r.deliverables ∧
      (preSave db r).prerequisites = r.prerequisites ∧
      (preSave db r).learningOutcomes = r.learningOutcomes ∧
      (preSave db r).status = r.status ∧
      (preSave db r).featured = r.featured ∧
      (preSave db r).tags = r.tags ∧
      (preSave db r).createdBy = r.createdBy ∧
      (preSave db r).viewCount = r.viewCount) := by
  constructor
  · intro db r h
    exact preSave_valid h
  · intro db r
    unfold preSave
    split <;>
      exact ⟨rfl, rfl, rfl, rfl, rfl, rfl, rfl, rfl, rfl, rfl, rfl, rfl, rfl, rfl, rfl⟩

/-- Witness for C2: a stored record with manual identifier `AIM001` is
untouched even though its domain already has stored records, and the
frame property instantiated on an unsaved record. -/
theorem c2_manual_id_preserved_witness :
    preSave [sampleStored] sampleStored = sampleStored ∧
      (preSave [] sampleUnsaved).title = sampleUnsaved.title := by
  exact ⟨c2_manual_id_preserved.1 [sampleStored] sampleStored (by decide),
    (c2_manual_id_preserved.2 [] sampleUnsaved).1⟩

/-- C10: for a record whose identifier the hook regenerates, the
generated identifier matches `^[A-Z]{2,3}\d{3}$` — and hence passes the
schema identifier validator — if and only if the pre-existing count of
records with the same domain is at most 998; from count 999 on, the
zero-padded suffix `String(count + 1).padStart(3, '0')` has at least four
digits and the identifier violates the format. -/
theorem c10_generated_id_format_iff (db : List ProblemStatement) (r : ProblemStatement)
    (h : r.id = "" ∨ matchesIdFormat r.id = false) :
    (matchesIdFormat (preSave db r).id = true
        ↔ countDocumentsWithDomain db r.domain ≤ 998) ∧
    (idValidator (preSave db r).id = true
        ↔ countDocumentsWithDomain db r.domain ≤ 998) := by
  rw [preSave_invalid h]
  have hid : ({ r with
      id := generatedId r.domain (countDocumentsWithDomain db r.domain) }).id
      = generatedId r.domain (countDocumentsWithDomain db r.domain) := rfl
  rw [hid]
  constructor
  · exact matchesIdFormat_generatedId r.domain (countDocumentsWithDomain db r.domain)
  · have hne : (generatedId r.domain (countDocumentsWithDomain db r.domain) == "") = false := by
      rw [beq_eq_false_iff_ne]
      exact generatedId_ne_empty _ _
    unfold idValidator
    rw [hne]
    simp only [Bool.false_or]
    exact matchesIdFormat_generatedId r.domain (countDocumentsWithDomain db r.domain)

/-- Witness for C10: with an empty collection (count 0 ≤ 998) the
generated identifier is format-valid and passes the validator. -/
theorem c10_generated_id_format_iff_witness :
    (matchesIdFormat (preSave [] sampleUnsaved).id = true
        ↔ countDocumentsWithDomain [] sampleUnsaved.domain ≤ 998) ∧
      matchesIdFormat (preSave [] sampleUnsaved).id = true := by
  have h := c10_generated_id_format_iff [] sampleUnsaved (Or.inl (by decide))
  exact ⟨h.1, h.1.2 (by decide)⟩

/-- C3: a bulk import whose byte stream parses into K rows, J of which
fail row-level validation, with every validation-passing row persisting
without error, returns `imported = K - J`, `failed = J`, and at least J
error entries. -/
theorem c3_bulk_import_counts (u : String) (rows : List (CsvRow × Option String))
    (h : ∀ p ∈ rows, validateRow p.1 = [] → p.2 = none) :
    (bulkUploadProblems u rows).imported = rows.length - countFailingRows rows ∧
      (bulkUploadProblems u rows).failed = countFailingRows rows ∧
      countFailingRows rows ≤ (bulkUploadProblems u rows).errors.length := by
  have hmain := processRows_counts u rows 2 ⟨0, 0, [], []⟩ h
  simpa [bulkUploadProblems] using hmain

/-- Witness for C3: K = 2 rows, of which J = 1 (a blank title) fails,
give imported 1, failed 1, and at least one error entry. -/
theorem c3_bulk_import_counts_witness :
    (bulkUploadProblems "admin" [(sampleRow, none), ({ sampleRow with title := "" }, none)]).imported
        = ([(sampleRow, none), ({ sampleRow with title := "" }, none)] : List (CsvRow × Option String)).length
          - countFailingRows [(sampleRow, none), ({ sampleRow with title := "" }, none)] ∧
      (bulkUploadProblems "admin" [(sampleRow, none), ({ sampleRow with title := "" }, none)]).failed
        = countFailingRows [(sampleRow, none), ({ sampleRow with title := "" }, none)] ∧
      countFailingRows [(sampleRow, none), ({ sampleRow with title := "" }, none)]
        ≤ (bulkUploadProblems "admin"
            [(sampleRow, none), ({ sampleRow with title := "" }, none)]).errors.length :=
  c3_bulk_import_counts "admin" [(sampleRow, none), ({ sampleRow with title := "" }, none)]
    (by decide)

/-- C4: a row with validation failures contributes one `"validation"`
error entry per failure without short-circuiting, is counted exactly once
in `failed`, leaves `imported` and the persisted collection untouched,
and processing continues with the remaining rows; in particular a row
with a missing title and a non-empty invalid category accumulates at
least two error messages. -/
theorem c4_validation_error_accumulation :
    (∀ (u : String) (n : Nat) (row : CsvRow) (oracle : Option String)
        (rest : List (CsvRow × Option String)) (st : ImportState),
      validateRow row ≠ [] →
      processRows u n ((row, oracle) :: rest) st
        = processRows u (n + 1) rest
            { st with failed := st.failed + 1
                      errors := st.errors
                        ++ (validateRow row).map (fun m => ⟨n, "validation", m⟩) }) ∧
    (∀ row : CsvRow,
      (row.title == "" || jsTrim row.title == "") = true →
      row.category ≠ "" →
      validCategories.contains (jsTrim row.category) = false →
      2 ≤ (validateRow row).length) := by
  constructor
  · intro u n row oracle rest st h
    exact processRows_invalid_step u n oracle rest st h
  · intro row htitle hcat1 hcat2
    have hcatne : (row.category == "") = false := by
      rw [beq_eq_false_iff_ne]
      exact hcat1
    unfold validateRow
    rw [if_pos htitle]
    rw [if_pos (show (!(row.category == "")
        && !(validCategories.contains (jsTrim row.category))) = true by
      rw [hcatne, hcat2]
      rfl)]
    simp only [List.length_append, List.length_cons, List.length_nil]
    omega

/-- Witness for C4: a concrete row with blank title and category
`"Bogus"` produces two or more messages and the per-row step equation
holds at that row. -/
theorem c4_validation_error_accumulation_witness :
    2 ≤ (validateRow { sampleRow with title := "", category := "Bogus" }).length ∧
      processRows "admin" 2 [({ sampleRow with title := "", category := "Bogus" }, none)]
          ⟨0, 0, [], []⟩
        = processRows "admin" 3 []
            { (⟨0, 0, [], []⟩ : ImportState) with
              failed := (⟨0, 0, [], []⟩ : ImportState).failed + 1
              errors := (⟨0, 0, [], []⟩ : ImportState).errors
                ++ (validateRow { sampleRow with title := "", category := "Bogus" }).map
                    (fun m => ⟨2, "validation", m⟩) } := by
  exact ⟨c4_validation_error_accumulation.2 { sampleRow with title := "", category := "Bogus" }
      (by decide) (by decide) (by decide),
    c4_validation_error_accumulation.1 "admin" 2
      { sampleRow with title := "", category := "Bogus" } none [] ⟨0, 0, [], []⟩ (by decide)⟩

/-- C5: a validation-passing row whose persistence attempt throws is
caught at row granularity — exactly one error entry with field
`"database"` carrying the failure text, `failed` incremented once, and
the loop goes on with the remaining rows. -/
theorem c5_db_failure_row_granularity (u : String) (n : Nat) (row : CsvRow)
    (msg : String) (rest : List (CsvRow × Option String)) (st : ImportState)
    (h : validateRow row = []) :
    processRows u n ((row, some msg) :: rest) st
      = processRows u (n + 1) rest
          { st with failed := st.failed + 1
                    errors := st.errors ++ [⟨n, "database", msg⟩] } :=
  processRows_dbfail_step u n msg rest st h

/-- Witness for C5: a valid row whose persistence throws a duplicate-key
error yields exactly the one-entry database error step. -/
theorem c5_db_failure_row_granularity_witness :
    processRows "admin" 2 [(sampleRow, some "E11000 duplicate key")] ⟨0, 0, [], []⟩
      = processRows "admin" 3 []
          { (⟨0, 0, [], []⟩ : ImportState) with
            failed := (⟨0, 0, [], []⟩ : ImportState).failed + 1
            errors := (⟨0, 0, [], []⟩ : ImportState).errors
              ++ [⟨2, "database", "E11000 duplicate key"⟩] } :=
  c5_db_failure_row_granularity "admin" 2 sampleRow "E11000 duplicate key" [] ⟨0, 0, [], []⟩
    (by decide)

/-- C6 counterexample: a row whose only failure is a blank title yields
the single error entry `⟨2, "validation", "Title is required"⟩`; its
field component is the constant `"validation"`, not the name of the
failing field (`"title"`), so the claim as stated is false. -/
theorem c6_field_component_counterexample :
    (bulkUploadProblems "admin" [({ sampleRow with title := "" }, none)]).errors
        = [⟨2, "validation", "Title is required"⟩] ∧
      ("validation" : String) ≠ "title" ∧ ("validation" : String) ≠ "Title" := by
  decide

/-- C6 amended: each missing or blank required field contributes an error
entry whose message (not field component) names the failing field — e.g.
`"Title is required"` — while the field component of every entry a
validation failure produces is the constant `"validation"`. -/
theorem c6_field_in_message_amended (row : CsvRow) :
    ((row.title == "" || jsTrim row.title == "") = true →
      "Title is required" ∈ validateRow row) ∧
    ((row.abstract == "" || jsTrim row.abstract == "") = true →
      "Abstract is required" ∈ validateRow row) ∧
    ((row.domain == "" || jsTrim row.domain == "") = true →
      "Domain is required" ∈ validateRow row) ∧
    ((row.category == "" || jsTrim row.category == "") = true →
      "Category is required" ∈ validateRow row) ∧
    ((row.difficulty == "" || jsTrim row.difficulty == "") = true →
      "Difficulty is required" ∈ validateRow row) ∧
    ((row.duration == "" || jsTrim row.duration == "") = true →
      "Duration is required" ∈ validateRow row) ∧
    (∀ (u : String) (n : Nat) (oracle : Option String)
        (rest : List (CsvRow × Option String)) (st : ImportState),
      validateRow row ≠ [] →
      processRows u n ((row, oracle) :: rest) st
        = processRows u (n + 1) rest
            { st with failed := st.failed + 1
                      errors := st.errors
                        ++ (validateRow row).map (fun m => ⟨n, "validation", m⟩) }) := by
  refine ⟨?_, ?_, ?_, ?_, ?_, ?_, ?_⟩
  · intro h
    simp [validateRow, h]
  · intro h
    simp [validateRow, h]
  · intro h
    simp [validateRow, h]
  · intro h
    simp [validateRow, h]
  · intro h
    simp [validateRow, h]
  · intro h
    simp [validateRow, h]
  · intro u n oracle rest st h
    exact processRows_invalid_step u n oracle rest st h

/-- Witness for C6 amended: instantiated at a row with a blank duration. -/
theorem c6_field_in_message_amended_witness :
    "Duration is required" ∈ validateRow { sampleRow with duration := " " } ∧
      processRows "admin" 2 [({ sampleRow with duration := " " }, none)] ⟨0, 0, [], []⟩
        = processRows "admin" 3 []
            { (⟨0, 0, [], []⟩ : ImportState) with
              failed := (⟨0, 0, [], []⟩ : ImportState).failed + 1
              errors := (⟨0, 0, [], []⟩ : ImportState).errors
                ++ (validateRow { sampleRow with duration := " " }).map
                    (fun m => ⟨2, "validation", m⟩) } := by
  exact ⟨(c6_field_in_message_amended { sampleRow with duration := " " }).2.2.2.2.2.1 (by decide),
    (c6_field_in_message_amended { sampleRow with duration := " " }).2.2.2.2.2.2 "admin" 2 none []
      ⟨0, 0, [], []⟩ (by decide)⟩

/-- C7 counterexample: the data row at 1-indexed source position 1 (the
first data row) produces an error entry with row number 2, not
1 + 2 = 3 as the claim demands. -/
theorem c7_row_numbering_counterexample :
    (bulkUploadProblems "admin" [({ sampleRow with title := "" }, none)]).errors.map
        ImportEntry.row = [2] ∧
      ¬((2 : Nat) = 1 + 2) := by
  decide

/-- C7 amended: the `errors` array equals the row-indexed error list that
assigns the data row at 0-indexed position i (1-indexed position k) the
row number i + 2 = k + 1 (the header occupying row 1), and every recorded
row number is at least 2. -/
theorem c7_row_numbering_amended (u : String) (rows : List (CsvRow × Option String)) :
    (bulkUploadProblems u rows).errors = errorsFrom 2 rows ∧
      ∀ e ∈ (bulkUploadProblems u rows).errors, 2 ≤ e.row := by
  have hchar : (bulkUploadProblems u rows).errors = errorsFrom 2 rows := by
    have := processRows_errors u rows 2 ⟨0, 0, [], []⟩
    simpa [bulkUploadProblems] using this
  refine ⟨hchar, ?_⟩
  intro e he
  rw [hchar] at he
  exact errorsFrom_row_ge rows 2 e he

/-- Witness for C7 amended: instantiated at a one-bad-row batch, whose
single entry carries row number 2. -/
theorem c7_row_numbering_amended_witness :
    (bulkUploadProblems "admin" [({ sampleRow with title := "" }, none)]).errors
        = errorsFrom 2 [({ sampleRow with title := "" }, none)] ∧
      2 ≤ (ImportEntry.mk 2 "validation" "Title is required").row := by
  refine ⟨(c7_row_numbering_amended "admin" [({ sampleRow with title := "" }, none)]).1, ?_⟩
  exact (c7_row_numbering_amended "admin" [({ sampleRow with title := "" }, none)]).2
    ⟨2, "validation", "Title is required"⟩ (by decide)

/-- C8: feeding the exact byte output of `downloadTemplate` back into the
bulk import pipeline, with every persistence attempt succeeding, imports
all 5 example rows with zero failures and an empty error list. -/
theorem c8_template_roundtrip (u : String) :
    (bulkUploadProblems u ((parseCsv templateCsv).map (fun r => (r, none)))).imported = 5 ∧
      (bulkUploadProblems u ((parseCsv templateCsv).map (fun r => (r, none)))).failed = 0 ∧
      (bulkUploadProblems u ((parseCsv templateCsv).map (fun r => (r, none)))).errors = [] := by
  have h1 : validateRow templateRow1 = [] := by decide
  have h2 : validateRow templateRow2 = [] := by decide
  have h3 : validateRow templateRow3 = [] := by decide
  have h4 : validateRow templateRow4 = [] := by decide
  have h5 : validateRow templateRow5 = [] := by decide
  rw [parseCsv_templateCsv]
  simp [bulkUploadProblems, processRows, h1, h2, h3, h4, h5]

/-- Witness for C8: the round-trip outcome at a concrete caller. -/
theorem c8_template_roundtrip_witness :
    (bulkUploadProblems "admin" ((parseCsv templateCsv).map (fun r => (r, none)))).imported = 5 ∧
      (bulkUploadProblems "admin" ((parseCsv templateCsv).map (fun r => (r, none)))).failed = 0 ∧
      (bulkUploadProblems "admin" ((parseCsv templateCsv).map (fun r => (r, none)))).errors = [] :=
  c8_template_roundtrip "admin"

/-- C9: list-typed cells are parsed by splitting on `;`, trimming every
part and discarding empty parts — for every raw cell, `parseArrayField`
equals exactly that composite, and an empty (or absent, modelled empty)
cell yields `[]`; in particular `"Python;TensorFlow; React "` parses to
`["Python", "TensorFlow", "React"]`. -/
theorem c9_parse_array_field :
    parseArrayField "Python;TensorFlow; React " = ["Python", "TensorFlow", "React"] ∧
      parseArrayField "" = [] ∧
      ∀ f : String, parseArrayField f
        = ((jsSplitSemi f).map jsTrim).filter (fun item => !(item == "")) := by
  refine ⟨by decide, by decide, ?_⟩
  intro f
  unfold parseArrayField
  split
  case isFalse => rfl
  case isTrue h =>
    have hws : ∀ c ∈ f.data, isWsChar c = true := by
      rcases Bool.or_eq_true_iff.1 h with h1 | h1
      · have hf : f = "" := by simpa using h1
        rw [hf]
        intro c hc
        simp at hc
      · exact (jsTrim_eq_empty_iff f).1 (by simpa using h1)
    symm
    rw [List.filter_eq_nil_iff]
    intro a ha
    simp only [List.mem_map, jsSplitSemi] at ha
    obtain ⟨b, ⟨part, hpart, hb⟩, hab⟩ := ha
    have hpartws : ∀ c ∈ part, isWsChar c = true :=
      fun c hc => hws c (splitChars_chars_subset ';' f.data part hpart c hc)
    have hbtrim : jsTrim b = "" := by
      rw [← hb]
      exact (jsTrim_eq_empty_iff (String.mk part)).2 hpartws
    rw [← hab, hbtrim]
    simp
